import Mathlib

/-!
Shallow embedding of the state machine of the legal-document analyzer
(`src/index.tsx`): the mutable application state record, the async
handlers `analyzeDocument`, `askFollowUpQuestion`, `handleFileUpload`,
the click handler `toggleClause`, and a reachability relation over the
events the rendered UI can fire.  External effects (the model API call,
the PDF extraction service, JSON.parse) are passed in as explicit
outcome values / parse functions, and each handler additionally returns
the message it sent over the network (`none` when no call was issued).
-/

namespace Legal

/-- One clause of the structured analysis, per `responseSchema`:
`original_text` is the only optional field. -/
structure Clause where
  clause_number : Int
  original_text : Option String
  simplified_text : String
  risk_level : String
  risk_description : String
deriving DecidableEq

/-- A critical clause entry of the analysis. -/
structure CriticalClause where
  clause_number : Int
  reason : String
deriving DecidableEq

/-- The overall risk assessment of the analysis. -/
structure RiskLevels where
  overall : String
  explanation : String
deriving DecidableEq

/-- The structured analysis result, per `responseSchema` in `src/index.tsx`
(`sentiment` and `intent` are not in the schema's `required` list). -/
structure Analysis where
  title : String
  contract_type : String
  summary : String
  clauses : List Clause
  critical_clauses : List CriticalClause
  risk_levels : RiskLevels
  sentiment : Option String
  intent : Option String
  key_points : List String
  audio_friendly_summary : String
deriving DecidableEq

/-- The speaker of a chat turn. -/
inductive Role where
  | user
  | model
deriving DecidableEq

/-- One turn of a chat history. -/
structure ChatTurn where
  role : Role
  text : String
deriving DecidableEq

/-- The conversational session handle created by `ai.chats.create`,
modelled as the seed history it was created with. -/
structure ChatSession where
  history : List ChatTurn
deriving DecidableEq

/-- The `state.form` record. -/
structure FormState where
  documentContent : String
  userRole : String
  audienceType : String
  explanationLevel : String
  explanationTone : String
deriving DecidableEq

/-- The global `state` record of `src/index.tsx`. -/
structure AppState where
  isLoading : Bool
  analysis : Option Analysis
  error : Option String
  activeClause : Option Int
  form : FormState
  chat : Option ChatSession
  chatHistory : List ChatTurn
  isChatLoading : Bool
  chatError : Option String
  currentQuestion : String
deriving DecidableEq

/-- The initial `state` value at page load (the world where the
`GoogleGenAI` client initialized successfully, so `error` is null). -/
def initialState : AppState where
  isLoading := false
  analysis := none
  error := none
  activeClause := none
  form :=
    { documentContent := ""
      userRole := "Tenant"
      audienceType := "Layman"
      explanationLevel := "Layman"
      explanationTone := "Casual" }
  chat := none
  chatHistory := []
  isChatLoading := false
  chatError := none
  currentQuestion := ""

/-- Outcome of the `ai.models.generateContent` call: either the promise
rejects with an error message, or it resolves with `response.text`. -/
inductive ModelOutcome where
  | fail (msg : String)
  | ok (text : String)

/-- Outcome of the `state.chat.sendMessage` call in a follow-up turn. -/
inductive ChatOutcome where
  | fail (msg : String)
  | ok (answer : String)

/-- Outcome of a `handleFileUpload` event: no file selected, a PDF whose
extraction yields per-page lists of text-item strings, a plain-text file
with its decoded content, an unsupported media type, or an extraction
error with the underlying message. -/
inductive UploadOutcome where
  | noFile
  | pdf (pages : List (List String))
  | txt (content : String)
  | unsupported
  | extractError (msg : String)

/-- Executable model of JavaScript's `String.prototype.trim`: strip
leading and trailing whitespace characters. -/
def jsTrim (s : String) : String :=
  ⟨((s.data.dropWhile Char.isWhitespace).reverse.dropWhile
      Char.isWhitespace).reverse⟩

/-- The user prompt template of `analyzeDocument` (the template literal
embedding the document and the four context fields). -/
def userPrompt (f : FormState) : String :=
  "Document content:\n\"\"\"\n" ++ f.documentContent ++
  "\n\"\"\"\n\nAdditional context:\n - User role: " ++ f.userRole ++
  "\n - Desired summary audience/type: " ++ f.audienceType ++
  "\n - Explanation complexity level: " ++ f.explanationLevel ++
  "\n - Explanation tone: " ++ f.explanationTone ++
  "\n - Required output format: JSON\n"

/-- The error message built in the catch branch of `analyzeDocument`. -/
def analysisErrorMsg (msg : String) : String :=
  "An error occurred during analysis: " ++ msg ++ ". Please try again."

/-- The seed history passed to `ai.chats.create` after a successful
analysis: the user prompt just sent, then a model turn consisting of a
fixed acknowledgement line followed by the (trimmed) JSON response. -/
def seedHistory (prompt jsonText : String) : List ChatTurn :=
  [⟨Role.user, prompt⟩,
   ⟨Role.model,
    "I have analyzed the document. Here is the summary in JSON format as requested:\n"
      ++ jsonText⟩]

/-- `analyzeDocument` (src/index.tsx lines 96-165).  `aiOk` models
whether the module-level `ai` client initialized; `parse` models
`JSON.parse` on the trimmed response text (throwing = `Except.error`);
`o` is the outcome of the `generateContent` call.  Returns the new state
and the prompt sent over the network (`none` when no call was made). -/
def analyzeDocument (aiOk : Bool) (parse : String → Except String Analysis)
    (s : AppState) (o : ModelOutcome) : AppState × Option String :=
  if aiOk = false then (s, none)
  else if jsTrim s.form.documentContent = "" then
    ({ s with error := some "Please paste or upload a document to analyze." }, none)
  else
    let prompt := userPrompt s.form
    let s1 : AppState :=
      { s with isLoading := true, analysis := none, error := none,
               chat := none, chatHistory := [] }
    match o with
    | ModelOutcome.fail msg =>
        ({ s1 with error := some (analysisErrorMsg msg), isLoading := false },
         some prompt)
    | ModelOutcome.ok text =>
        match parse (jsTrim text) with
        | Except.error msg =>
            ({ s1 with error := some (analysisErrorMsg msg), isLoading := false },
             some prompt)
        | Except.ok a =>
            ({ s1 with analysis := some a,
                       chat := some ⟨seedHistory prompt (jsTrim text)⟩,
                       isLoading := false },
             some prompt)

/-- `askFollowUpQuestion` (src/index.tsx lines 168-197).  Returns the
new state and the message sent to the chat session (`none` when the
guard returned early and no message was sent). -/
def askFollowUpQuestion (s : AppState) (o : ChatOutcome) :
    AppState × Option String :=
  if s.chat.isNone ∨ jsTrim s.currentQuestion = "" ∨ s.isChatLoading then
    (s, none)
  else
    let question := jsTrim s.currentQuestion
    let s1 : AppState :=
      { s with isChatLoading := true, chatError := none,
               chatHistory := s.chatHistory ++ [⟨Role.user, question⟩],
               currentQuestion := "" }
    match o with
    | ChatOutcome.ok answer =>
        ({ s1 with chatHistory := s1.chatHistory ++ [⟨Role.model, answer⟩],
                   isChatLoading := false },
         some question)
    | ChatOutcome.fail msg =>
        ({ s1 with chatError := some ("Sorry, an error occurred: " ++ msg),
                   isChatLoading := false },
         some question)

/-- `handleFileUpload` (src/index.tsx lines 460-506).  With a file
present it sets `isLoading`, clears `error`, `documentContent` and
`analysis`, runs ingestion, and finally clears `isLoading`; it never
touches `chat`, `chatHistory`, `activeClause`, `chatError` or
`currentQuestion`. -/
def handleFileUpload (s : AppState) (o : UploadOutcome) : AppState :=
  match o with
  | UploadOutcome.noFile => s
  | UploadOutcome.pdf pages =>
      let textContent :=
        String.intercalate "\n\n"
          (pages.map (fun items => String.intercalate " " items))
      { s with isLoading := false, error := none, analysis := none,
               form := { s.form with documentContent := textContent } }
  | UploadOutcome.txt content =>
      { s with isLoading := false, error := none, analysis := none,
               form := { s.form with documentContent := content } }
  | UploadOutcome.unsupported =>
      { s with isLoading := false,
               error := some ("Failed to process the uploaded file: " ++
                 "Unsupported file type. Please upload a .txt or .pdf file."),
               analysis := none,
               form := { s.form with documentContent := "" } }
  | UploadOutcome.extractError msg =>
      { s with isLoading := false,
               error := some ("Failed to process the uploaded file: " ++ msg),
               analysis := none,
               form := { s.form with documentContent := "" } }

/-- `toggleClause` (src/index.tsx lines 508-511). -/
def toggleClause (clauseNumber : Int) (s : AppState) : AppState :=
  { s with activeClause :=
      if s.activeClause = some clauseNumber then none else some clauseNumber }

/-- The clause numbers of an analysis, in clause-list order. -/
def clauseNumbers (a : Analysis) : List Int :=
  a.clauses.map (fun c => c.clause_number)

/-- Whether `renderChat` renders the chat-error block: the chat panel
exists only when `state.chat` is non-null, and inside it the error block
is rendered exactly when `state.chatError` is non-null. -/
def chatErrorShown (s : AppState) : Bool :=
  s.chat.isSome && s.chatError.isSome

/-- Events the rendered UI can fire, with the outcome of any external
call each one triggers. -/
inductive Event where
  | analyze (parse : String → Except String Analysis) (o : ModelOutcome)
  | upload (o : UploadOutcome)
  | toggle (n : Int)
  | ask (o : ChatOutcome)
  | setDocument (text : String)
  | setQuestion (q : String)

/-- When an event can fire, per the rendered UI: the submit button is
disabled while `isLoading`; clause headers and the chat panel exist
only in the full-analysis view (`isLoading` false, no error, analysis
present), clause headers only for clauses of the current analysis, the
chat panel only when a session exists, and the chat input is disabled
while a chat turn is in flight. -/
def enabled (s : AppState) : Event → Prop
  | Event.analyze _ _ => s.isLoading = false
  | Event.upload _ => True
  | Event.toggle n =>
      s.isLoading = false ∧ s.error = none ∧
      ∃ a, s.analysis = some a ∧ n ∈ clauseNumbers a
  | Event.ask _ =>
      s.isLoading = false ∧ s.error = none ∧
      s.analysis.isSome = true ∧ s.chat.isSome = true
  | Event.setDocument _ => True
  | Event.setQuestion _ =>
      s.isLoading = false ∧ s.error = none ∧
      s.analysis.isSome = true ∧ s.chat.isSome = true ∧
      s.isChatLoading = false

/-- The state after an event (the handlers' network output dropped). -/
def step (s : AppState) : Event → AppState
  | Event.analyze parse o => (analyzeDocument true parse s o).1
  | Event.upload o => handleFileUpload s o
  | Event.toggle n => toggleClause n s
  | Event.ask o => (askFollowUpQuestion s o).1
  | Event.setDocument text =>
      { s with form := { s.form with documentContent := text } }
  | Event.setQuestion q => { s with currentQuestion := q }

/-- States reachable from page load through enabled UI events. -/
inductive Reachable : AppState → Prop where
  | init : Reachable initialState
  | next : ∀ s e, Reachable s → enabled s e → Reachable (step s e)

/-! Concrete sample values used by witnesses and counterexamples. -/

/-- A sample clause with a given clause number. -/
def sampleClause (n : Int) : Clause :=
  ⟨n, none, "simplified", "Low", "none noted"⟩

/-- A sample analysis whose clause numbers are 1 and 3. -/
def analysisA : Analysis :=
  ⟨"Lease A", "Lease", "summary", [sampleClause 1, sampleClause 3], [],
   ⟨"Low", "fine"⟩, none, none, ["point"], "audio"⟩

/-- A sample analysis whose only clause number is 1. -/
def analysisB : Analysis :=
  ⟨"Lease B", "Lease", "summary", [sampleClause 1], [],
   ⟨"Low", "fine"⟩, none, none, ["point"], "audio"⟩

/-- A `JSON.parse` model that always succeeds with `analysisA`. -/
def parseConstA : String → Except String Analysis :=
  fun _ => Except.ok analysisA

/-- A `JSON.parse` model that always succeeds with `analysisB`. -/
def parseConstB : String → Except String Analysis :=
  fun _ => Except.ok analysisB

/-- The initial state after typing a document into the textarea. -/
def stateWithDoc : AppState :=
  step initialState (Event.setDocument "Hi")

/-- The state after a successful analysis of that document. -/
def analyzedState : AppState :=
  step stateWithDoc (Event.analyze parseConstA (ModelOutcome.ok "{}"))

/-- A sample non-empty form (the defaults with a document pasted). -/
def sampleForm : FormState :=
  { documentContent := "Hi"
    userRole := "Tenant"
    audienceType := "Layman"
    explanationLevel := "Layman"
    explanationTone := "Casual" }

/-- A sample state holding a non-empty document. -/
def sampleState : AppState :=
  { initialState with form := sampleForm }

/-! Claims. -/

/-- C5: submitting the analysis form with an empty or whitespace-only
document issues no network call (for any client state) and, when the
client is available, sets exactly the validation error message and
changes nothing else. -/
theorem c5_empty_document_no_call (aiOk : Bool)
    (parse : String → Except String Analysis) (s : AppState)
    (o : ModelOutcome) (h : jsTrim s.form.documentContent = "") :
    (analyzeDocument aiOk parse s o).2 = none ∧
    (analyzeDocument true parse s o).1 =
      { s with error := some "Please paste or upload a document to analyze." } := by
  constructor
  · cases aiOk <;> simp [analyzeDocument, h]
  · simp [analyzeDocument, h]

/-- Witness for C5 at the page-load state (empty document). -/
theorem c5_witness :
    (analyzeDocument true parseConstA initialState (ModelOutcome.ok "x")).2
      = none ∧
    (analyzeDocument true parseConstA initialState (ModelOutcome.ok "x")).1 =
      { initialState with
          error := some "Please paste or upload a document to analyze." } :=
  c5_empty_document_no_call true parseConstA initialState
    (ModelOutcome.ok "x") rfl

/-- C6: ingesting a PDF whose extraction yields per-page ordered lists of
text items produces the page texts (items joined by single spaces) joined
by a blank line; in particular pages ["Hello"], ["World"] ingest to
"Hello\n\nWorld". -/
theorem c6_pdf_ingestion (s : AppState) (pages : List (List String)) :
    (handleFileUpload s (UploadOutcome.pdf pages)).form.documentContent =
      String.intercalate "\n\n"
        (pages.map (fun items => String.intercalate " " items)) ∧
    (handleFileUpload s
        (UploadOutcome.pdf [["Hello"], ["World"]])).form.documentContent =
      "Hello\n\nWorld" :=
  ⟨rfl, rfl⟩

/-- C7: while a chat turn is in flight, submitting another question is a
no-op — the whole state is returned unchanged and no message is sent. -/
theorem c7_inflight_noop (s : AppState) (o : ChatOutcome)
    (h : s.isChatLoading = true) :
    askFollowUpQuestion s o = (s, none) := by
  simp [askFollowUpQuestion, h]

/-- Witness for C7 at a concrete in-flight state. -/
theorem c7_witness :
    askFollowUpQuestion
        { sampleState with isChatLoading := true, chat := some ⟨[]⟩,
                           currentQuestion := "Why?" }
        (ChatOutcome.ok "answer") =
      ({ sampleState with isChatLoading := true, chat := some ⟨[]⟩,
                          currentQuestion := "Why?" }, none) :=
  c7_inflight_noop _ (ChatOutcome.ok "answer") rfl

/-- C8: toggling clause N when it is active clears the selection;
toggling M when M is not the active clause selects M; and toggling N
twice returns the selection to its start value whenever that value was
N or none (a single optional field, so at most one clause is active). -/
theorem c8_toggle_algebra (s : AppState) (n m : Int) :
    (s.activeClause = some n → (toggleClause n s).activeClause = none) ∧
    (s.activeClause ≠ some m → (toggleClause m s).activeClause = some m) ∧
    ((s.activeClause = some n ∨ s.activeClause = none) →
      (toggleClause n (toggleClause n s)).activeClause = s.activeClause) := by
  refine ⟨fun h => by simp [toggleClause, h], fun h => by simp [toggleClause, h], ?_⟩
  rintro (h | h) <;> simp [toggleClause, h]

/-- Witness for C8 at a concrete state with clause 1 active. -/
theorem c8_witness :
    (toggleClause 1 { sampleState with activeClause := some 1 }).activeClause
      = none ∧
    (toggleClause 2 { sampleState with activeClause := some 1 }).activeClause
      = some 2 ∧
    (toggleClause 1 (toggleClause 1
        { sampleState with activeClause := some 1 })).activeClause
      = some 1 :=
  ⟨(c8_toggle_algebra { sampleState with activeClause := some 1 } 1 2).1 rfl,
   (c8_toggle_algebra { sampleState with activeClause := some 1 } 1 2).2.1
     (by decide),
   (c8_toggle_algebra { sampleState with activeClause := some 1 } 1 2).2.2
     (Or.inl rfl)⟩

/-- The failure cause of an `analyzeDocument` call, if it failed: the
rejection message of the API call, or the message of the `JSON.parse`
exception on the trimmed response text. -/
def analyzeFailure (parse : String → Except String Analysis) :
    ModelOutcome → Option String
  | ModelOutcome.fail msg => some msg
  | ModelOutcome.ok text =>
      match parse (jsTrim text) with
      | Except.error msg => some msg
      | Except.ok _ => none

/-- C2: when the analysis call fails at any point (API failure or parse
failure), the resulting state keeps no partial analysis, carries exactly
the one error message embedding the underlying cause, has the loading
flag cleared, and nothing else of the pre-call state is disturbed beyond
the chat teardown done at submission. -/
theorem c2_failed_analysis_atomic (parse : String → Except String Analysis)
    (s : AppState) (o : ModelOutcome) (msg : String)
    (hdoc : ¬ jsTrim s.form.documentContent = "")
    (hfail : analyzeFailure parse o = some msg) :
    (analyzeDocument true parse s o).1 =
      { s with isLoading := false, analysis := none,
               error := some ("An error occurred during analysis: " ++ msg ++ ". Please try again."),
               chat := none, chatHistory := [] } := by
  cases o with
  | fail m =>
      have hm : m = msg := by simpa [analyzeFailure] using hfail
      subst hm
      simp [analyzeDocument, hdoc, analysisErrorMsg]
  | ok text =>
      cases hp : parse (jsTrim text) with
      | error m =>
          have hm : m = msg := by simpa [analyzeFailure, hp] using hfail
          subst hm
          simp [analyzeDocument, hdoc, hp, analysisErrorMsg]
      | ok a => simp [analyzeFailure, hp] at hfail

/-- Witness for C2: a concrete API-level failure. -/
theorem c2_witness :
    (analyzeDocument true parseConstA sampleState
        (ModelOutcome.fail "boom")).1 =
      { sampleState with
          isLoading := false, analysis := none,
          error := some ("An error occurred during analysis: " ++ "boom" ++ ". Please try again."),
          chat := none, chatHistory := [] } :=
  c2_failed_analysis_atomic parseConstA sampleState
    (ModelOutcome.fail "boom") "boom" (by decide) rfl

/-- C9: `analyzeDocument` never writes `chatError` or `currentQuestion`,
whatever the client state, parse behaviour or call outcome; and whenever
the new state has a chat session, `renderChat` shows the (inherited)
chat error exactly when one was present before the analysis. -/
theorem c9_analyze_frame (aiOk : Bool)
    (parse : String → Except String Analysis) (s : AppState)
    (o : ModelOutcome) :
    (analyzeDocument aiOk parse s o).1.chatError = s.chatError ∧
    (analyzeDocument aiOk parse s o).1.currentQuestion = s.currentQuestion ∧
    ((analyzeDocument aiOk parse s o).1.chat.isSome = true →
      chatErrorShown (analyzeDocument aiOk parse s o).1 =
        s.chatError.isSome) := by
  have key : ∀ r : AppState, r.chat.isSome = true →
      chatErrorShown r = r.chatError.isSome := fun r h => by
    simp [chatErrorShown, h]
  have frame : (analyzeDocument aiOk parse s o).1.chatError = s.chatError ∧
      (analyzeDocument aiOk parse s o).1.currentQuestion =
        s.currentQuestion := by
    cases aiOk with
    | false => exact ⟨rfl, rfl⟩
    | true =>
        by_cases hdoc : jsTrim s.form.documentContent = ""
        · simp [analyzeDocument, hdoc]
        · cases o with
          | fail m => simp [analyzeDocument, hdoc]
          | ok text =>
              cases hp : parse (jsTrim text) <;>
                simp [analyzeDocument, hdoc, hp]
  exact ⟨frame.1, frame.2, fun h =>
    (key _ h).trans (congrArg Option.isSome frame.1)⟩

/-- Witness for C9: a stale chat error survives a successful analysis
and is shown in the new session's chat panel. -/
theorem c9_witness :
    (analyzeDocument true parseConstA
        { sampleState with chatError := some "old chat error",
                           currentQuestion := "draft" }
        (ModelOutcome.ok "{}")).1.chatError = some "old chat error" ∧
    (analyzeDocument true parseConstA
        { sampleState with chatError := some "old chat error",
                           currentQuestion := "draft" }
        (ModelOutcome.ok "{}")).1.currentQuestion = "draft" ∧
    chatErrorShown (analyzeDocument true parseConstA
        { sampleState with chatError := some "old chat error",
                           currentQuestion := "draft" }
        (ModelOutcome.ok "{}")).1 = true :=
  ⟨(c9_analyze_frame true parseConstA
      { sampleState with chatError := some "old chat error",
                         currentQuestion := "draft" }
      (ModelOutcome.ok "{}")).1,
   (c9_analyze_frame true parseConstA
      { sampleState with chatError := some "old chat error",
                         currentQuestion := "draft" }
      (ModelOutcome.ok "{}")).2.1,
   (c9_analyze_frame true parseConstA
      { sampleState with chatError := some "old chat error",
                         currentQuestion := "draft" }
      (ModelOutcome.ok "{}")).2.2 rfl⟩

/-- C10: with no chat session or a question that trims to empty,
`askFollowUpQuestion` leaves the whole state unchanged and sends
nothing; when a question is sent, both the message sent to the session
and the user turn appended to the transcript are the trimmed pending
question. -/
theorem c10_ask_guard_and_trim (s : AppState) (o : ChatOutcome) :
    ((s.chat = none ∨ jsTrim s.currentQuestion = "") →
      askFollowUpQuestion s o = (s, none)) ∧
    (s.chat.isSome = true → ¬ jsTrim s.currentQuestion = "" →
      s.isChatLoading = false →
      (askFollowUpQuestion s o).2 = some (jsTrim s.currentQuestion) ∧
      ∃ rest, (askFollowUpQuestion s o).1.chatHistory =
        s.chatHistory ++ (⟨Role.user, jsTrim s.currentQuestion⟩ :: rest)) := by
  constructor
  · rintro (h | h) <;> simp [askFollowUpQuestion, h]
  · intro hchat hq hload
    have hnone : s.chat.isNone = false := by
      cases hc : s.chat <;> simp [hc] at hchat ⊢
    cases o with
    | ok answer =>
        refine ⟨?_, [⟨Role.model, answer⟩], ?_⟩ <;>
          simp [askFollowUpQuestion, hnone, hq, hload]
    | fail m =>
        refine ⟨?_, [], ?_⟩ <;>
          simp [askFollowUpQuestion, hnone, hq, hload]

/-- Witness for C10: the guard at a session-less state, and the trimming
of a padded question at a chatting state. -/
theorem c10_witness :
    askFollowUpQuestion initialState (ChatOutcome.ok "a") =
      (initialState, none) ∧
    (askFollowUpQuestion
        { sampleState with chat := some ⟨[]⟩, analysis := some analysisA,
                           currentQuestion := " What? " }
        (ChatOutcome.ok "a")).2 = some "What?" ∧
    ∃ rest,
      (askFollowUpQuestion
          { sampleState with chat := some ⟨[]⟩, analysis := some analysisA,
                             currentQuestion := " What? " }
          (ChatOutcome.ok "a")).1.chatHistory =
        [] ++ (⟨Role.user, "What?"⟩ :: rest) :=
  ⟨(c10_ask_guard_and_trim initialState (ChatOutcome.ok "a")).1 (Or.inl rfl),
   ((c10_ask_guard_and_trim
       { sampleState with chat := some ⟨[]⟩, analysis := some analysisA,
                          currentQuestion := " What? " }
       (ChatOutcome.ok "a")).2 rfl (by decide) rfl).1,
   ((c10_ask_guard_and_trim
       { sampleState with chat := some ⟨[]⟩, analysis := some analysisA,
                          currentQuestion := " What? " }
       (ChatOutcome.ok "a")).2 rfl (by decide) rfl).2⟩

/-- The state after the user, from `analyzedState`, uploads a new
plain-text file: `handleFileUpload` clears the analysis but not the
chat session. -/
def c1BadState : AppState :=
  step analyzedState (Event.upload (UploadOutcome.txt "next contract"))

/-- C1 counterexample: a reachable state (type a document, analyze it
successfully, then upload a new text file) in which the chat session
handle is non-null while the analysis is null — `handleFileUpload`
discards the analysis but not the chat session, refuting the claimed
invariant `state.chat != null → state.analysis != null`. -/
theorem c1_counterexample :
    Reachable c1BadState ∧ c1BadState.chat.isSome = true ∧
      c1BadState.analysis = none :=
  ⟨Reachable.next analyzedState _
      (Reachable.next stateWithDoc _
        (Reachable.next initialState _ Reachable.init trivial) rfl)
      trivial,
   rfl, rfl⟩

/-- C1 amended: an analysis submission that passes validation tears down
the chat session and transcript and re-establishes the session only
together with a new analysis, so after `analyzeDocument` the chat handle
is non-null only if the analysis is; but a file upload with a file
selected clears the analysis while leaving the chat session and
transcript untouched, so a null analysis can coexist with a non-null
chat handle after an upload. -/
theorem c1_amended (parse : String → Except String Analysis)
    (s : AppState) (o : ModelOutcome) (u : UploadOutcome)
    (hdoc : ¬ jsTrim s.form.documentContent = "")
    (hu : u ≠ UploadOutcome.noFile) :
    ((analyzeDocument true parse s o).1.chat.isSome = true →
      (analyzeDocument true parse s o).1.analysis.isSome = true) ∧
    ((analyzeDocument true parse s o).1.analysis = none →
      (analyzeDocument true parse s o).1.chat = none ∧
      (analyzeDocument true parse s o).1.chatHistory = []) ∧
    (handleFileUpload s u).analysis = none ∧
    (handleFileUpload s u).chat = s.chat ∧
    (handleFileUpload s u).chatHistory = s.chatHistory := by
  have hup : (handleFileUpload s u).analysis = none ∧
      (handleFileUpload s u).chat = s.chat ∧
      (handleFileUpload s u).chatHistory = s.chatHistory := by
    cases u with
    | noFile => exact absurd rfl hu
    | pdf pages => exact ⟨rfl, rfl, rfl⟩
    | txt content => exact ⟨rfl, rfl, rfl⟩
    | unsupported => exact ⟨rfl, rfl, rfl⟩
    | extractError msg => exact ⟨rfl, rfl, rfl⟩
  refine ⟨?_, ?_, hup.1, hup.2.1, hup.2.2⟩ <;>
    cases o with
    | fail m => simp [analyzeDocument, hdoc]
    | ok text =>
        cases hp : parse (jsTrim text) <;> simp [analyzeDocument, hdoc, hp]

/-- Witness for C1 amended: a failed analysis from `sampleState`, and a
text-file upload from the post-analysis state `analyzedState`. -/
theorem c1_witness :
    ((analyzeDocument true parseConstA sampleState
        (ModelOutcome.fail "boom")).1.analysis = none →
      (analyzeDocument true parseConstA sampleState
          (ModelOutcome.fail "boom")).1.chat = none ∧
      (analyzeDocument true parseConstA sampleState
          (ModelOutcome.fail "boom")).1.chatHistory = []) ∧
    (handleFileUpload analyzedState (UploadOutcome.txt "next")).analysis
      = none ∧
    (handleFileUpload analyzedState (UploadOutcome.txt "next")).chat
      = analyzedState.chat :=
  ⟨(c1_amended parseConstA sampleState (ModelOutcome.fail "boom")
      (UploadOutcome.txt "next") (by decide) (by simp)).2.1,
   (c1_amended parseConstA analyzedState (ModelOutcome.fail "boom")
      (UploadOutcome.txt "next") (by decide) (by simp)).2.2.1,
   (c1_amended parseConstA analyzedState (ModelOutcome.fail "boom")
      (UploadOutcome.txt "next") (by decide) (by simp)).2.2.2.1⟩

/-- C3 counterexample: analyzing the sample document with response text
"X " (note the trailing space) does not create a session whose seed
history is the user prompt followed by the raw response text as the
model turn — the model turn is an acknowledgement line plus the trimmed
response, not the raw response. -/
theorem c3_counterexample :
    (analyzeDocument true parseConstA sampleState
        (ModelOutcome.ok "X ")).1.chat ≠
      some ⟨[⟨Role.user, userPrompt sampleForm⟩, ⟨Role.model, "X "⟩]⟩ := by
  set_option maxRecDepth 8192 in decide

/-- C3 amended: on every successful analysis, `analyzeDocument` clears
any prior error and prior chat transcript and creates a session whose
seed history is exactly two turns — the user prompt just sent, and a
model turn whose text is the fixed acknowledgement line followed by a
newline and the trimmed JSON response text (not the raw response
verbatim). -/
theorem c3_seed_history (parse : String → Except String Analysis)
    (s : AppState) (text : String) (a : Analysis)
    (hdoc : ¬ jsTrim s.form.documentContent = "")
    (hparse : parse (jsTrim text) = Except.ok a) :
    (analyzeDocument true parse s (ModelOutcome.ok text)).1 =
      { s with
          isLoading := false, analysis := some a, error := none,
          chat := some ⟨[⟨Role.user, userPrompt s.form⟩,
            ⟨Role.model, "I have analyzed the document. Here is the summary in JSON format as requested:\n" ++ jsTrim text⟩]⟩,
          chatHistory := [] } := by
  simp [analyzeDocument, hdoc, hparse, seedHistory]

/-- Witness for C3 amended at the sample document and response "X ". -/
theorem c3_witness :
    (analyzeDocument true parseConstA sampleState
        (ModelOutcome.ok "X ")).1 =
      { sampleState with
          isLoading := false, analysis := some analysisA, error := none,
          chat := some ⟨[⟨Role.user, userPrompt sampleState.form⟩,
            ⟨Role.model, "I have analyzed the document. Here is the summary in JSON format as requested:\n" ++ jsTrim "X "⟩]⟩,
          chatHistory := [] } :=
  c3_seed_history parseConstA sampleState "X " analysisA (by decide) rfl

/-- The state after toggling clause 3 of the first analysis open and
then running a second, successful analysis whose clauses are numbered
only 1: `analyzeDocument` never resets `activeClause`. -/
def c4BadState : AppState :=
  step (step analyzedState (Event.toggle 3))
    (Event.analyze parseConstB (ModelOutcome.ok "{}"))

/-- C4 counterexample: a reachable state (analyze, expand clause 3,
re-analyze successfully with an analysis whose only clause number is 1)
in which `activeClause` is 3 but 3 is not a clause number of the current
analysis, refuting the claimed invariant. -/
theorem c4_counterexample :
    Reachable c4BadState ∧ c4BadState.analysis = some analysisB ∧
      c4BadState.activeClause = some 3 ∧
      ¬ ((3 : Int) ∈ clauseNumbers analysisB) :=
  ⟨Reachable.next (step analyzedState (Event.toggle 3)) _
      (Reachable.next analyzedState (Event.toggle 3)
        (Reachable.next stateWithDoc _
          (Reachable.next initialState _ Reachable.init trivial) rfl)
        ⟨rfl, rfl, analysisA, rfl, by decide⟩)
      rfl,
   rfl, rfl, by decide⟩

/-- C4 amended: a toggle can only activate the clause number it was
invoked with — which the rendered UI draws from the current analysis —
so immediately after a toggle the active id, if set, is a clause number
of the analysis current at that moment; but `analyzeDocument` leaves
`activeClause` unchanged in every branch, so once the analysis is
replaced the active id may reference a clause number absent from the new
analysis. -/
theorem c4_amended (s : AppState) (n : Int) (a : Analysis) (aiOk : Bool)
    (parse : String → Except String Analysis) (o : ModelOutcome)
    (_ha : s.analysis = some a) (hn : n ∈ clauseNumbers a) :
    (∀ m, (toggleClause n s).activeClause = some m → m ∈ clauseNumbers a) ∧
    (analyzeDocument aiOk parse s o).1.activeClause = s.activeClause := by
  constructor
  · intro m hm
    by_cases h : s.activeClause = some n
    · simp [toggleClause, h] at hm
    · simp [toggleClause, h] at hm
      exact hm ▸ hn
  · cases aiOk with
    | false => rfl
    | true =>
        by_cases hdoc : jsTrim s.form.documentContent = ""
        · simp [analyzeDocument, hdoc]
        · cases o with
          | fail m => simp [analyzeDocument, hdoc]
          | ok text =>
              cases hp : parse (jsTrim text) <;>
                simp [analyzeDocument, hdoc, hp]

/-- Witness for C4 amended at `analyzedState`, toggling clause 3. -/
theorem c4_witness :
    (∀ m, (toggleClause 3 analyzedState).activeClause = some m →
      m ∈ clauseNumbers analysisA) ∧
    (analyzeDocument true parseConstB analyzedState
        (ModelOutcome.ok "{}")).1.activeClause = analyzedState.activeClause :=
  c4_amended analyzedState 3 analysisA true parseConstB
    (ModelOutcome.ok "{}") rfl (by decide)

end Legal
